import Mathlib

/-!
Verification of the HaptiNavAI assistive-vision web application.

This file gives a shallow embedding of the stateful logic of the three app
modes and proves the specified properties about it:

* `SceneDescriptorMode.tsx` — live-session audio playback scheduling
  (the `onmessage` handler), interruption handling, the `cleanup` teardown,
  the `onerror` transition and the `startSession` media-stream guard;
* `FastMode.tsx` — the `handleCapture` single-in-flight guard and the
  spoken-summary generation over detector labels;
* `MapsMode.tsx` — the stale-response guard of the navigation loop and the
  geolocation permission state machine.

Times are modelled as rationals, opaque browser resources (timers, streams,
processor nodes, sessions) as `Option Unit` handles, and audio contexts as
`Option CtxState` so that the `state !== closed` guard of `cleanup` is
representable.
-/

namespace HaptiNav

/-! ### Scene Descriptor: output-audio playback (onmessage handler) -/

/-- The refs touched by the `onmessage` callback of `SceneDescriptorMode`:
the running transcription text, `nextAudioStartTimeRef`, the set of in-flight
scheduled sources (`audioSourcesRef`, as a list of ids), the sources on which
`stop()` has been called, and a counter supplying fresh source ids. -/
structure PlaybackState where
  transcription : String
  nextAudioStartTime : ℚ
  audioSources : List Nat
  stoppedSources : List Nat
  nextSourceId : Nat
  deriving DecidableEq

/-- The audio branch of `onmessage` (SceneDescriptorMode.tsx lines 158-169):
`nextAudioStartTime := max(nextAudioStartTime, ctx.currentTime)`; a fresh
buffer source is started at that time and added to `audioSources`; then
`nextAudioStartTime` advances by the buffer's duration.  Returns the updated
state together with the scheduled start time. -/
def onAudioChunk (st : PlaybackState) (currentTime duration : ℚ) : PlaybackState × ℚ :=
  let start := max st.nextAudioStartTime currentTime
  ({ st with
      nextAudioStartTime := start + duration,
      audioSources := st.audioSources ++ [st.nextSourceId],
      nextSourceId := st.nextSourceId + 1 }, start)

/-- A `LiveServerMessage` as consumed by `onmessage`: an optional transcript
fragment, an optional audio fragment (modelled by the decoded buffer's
duration), and the interruption flag. -/
structure ServerMessage where
  outputTranscription : Option String
  audioDuration : Option ℚ
  interrupted : Bool
  deriving DecidableEq

/-- The `onmessage` callback (SceneDescriptorMode.tsx lines 152-178):
append any transcript fragment, schedule any audio fragment, and last,
if the message carries the interruption flag, stop every source in
`audioSources`, clear the set and reset `nextAudioStartTime` to `0`.
`currentTime` is the output audio context's clock at handling time. -/
def onmessage (currentTime : ℚ) (message : ServerMessage) (st : PlaybackState) :
    PlaybackState :=
  let st1 :=
    match message.outputTranscription with
    | some text => { st with transcription := st.transcription ++ text }
    | none => st
  let st2 :=
    match message.audioDuration with
    | some d => (onAudioChunk st1 currentTime d).1
    | none => st1
  if message.interrupted then
    { st2 with
        stoppedSources := st2.stoppedSources ++ st2.audioSources,
        audioSources := [],
        nextAudioStartTime := 0 }
  else st2

/-- The trace of `(start, duration)` pairs produced by feeding a sequence of
audio fragments — each given as `(ctx.currentTime at arrival, duration)` —
through the audio branch of `onmessage`. -/
def scheduleStarts (st : PlaybackState) : List (ℚ × ℚ) → List (ℚ × ℚ)
  | [] => []
  | frag :: rest =>
    ((onAudioChunk st frag.1 frag.2).2, frag.2) ::
      scheduleStarts (onAudioChunk st frag.1 frag.2).1 rest

/-! ### Scene Descriptor: resource refs and lifecycle -/

/-- Observable state of a browser `AudioContext`. -/
inductive CtxState
  | running
  | closed
  deriving DecidableEq, Fintype

/-- The resource refs of `SceneDescriptorMode`: `frameIntervalRef`,
`mediaStreamRef`, `scriptProcessorRef`, `inputAudioContextRef`,
`outputAudioContextRef` and `sessionRef`.  Handles are opaque. -/
structure SceneResources where
  frameInterval : Option Unit
  mediaStream : Option Unit
  scriptProcessor : Option Unit
  inputAudioContext : Option CtxState
  outputAudioContext : Option CtxState
  session : Option Unit
  deriving DecidableEq

/-- `SceneResources` as a product, to transfer finiteness. -/
def sceneResourcesEquiv :
    SceneResources ≃
      Option Unit × Option Unit × Option Unit × Option CtxState × Option CtxState ×
        Option Unit where
  toFun r := (r.frameInterval, r.mediaStream, r.scriptProcessor, r.inputAudioContext,
    r.outputAudioContext, r.session)
  invFun p := ⟨p.1, p.2.1, p.2.2.1, p.2.2.2.1, p.2.2.2.2.1, p.2.2.2.2.2⟩
  left_inv := fun _ => rfl
  right_inv := fun _ => rfl

instance : Fintype SceneResources :=
  Fintype.ofEquiv _ sceneResourcesEquiv.symm

/-- The `cleanup` callback (SceneDescriptorMode.tsx lines 31-56): clear the
frame timer, stop the media stream's tracks, disconnect the script processor,
close each audio context only when present and not already closed (an already
closed context is left untouched), and close the session.  Each guard reads
and nulls its own ref. -/
def cleanup (r : SceneResources) : SceneResources :=
  let r1 := if r.frameInterval.isSome then { r with frameInterval := none } else r
  let r2 := if r1.mediaStream.isSome then { r1 with mediaStream := none } else r1
  let r3 := if r2.scriptProcessor.isSome then { r2 with scriptProcessor := none } else r2
  let r4 :=
    match r3.inputAudioContext with
    | some c => if c = CtxState.closed then r3 else { r3 with inputAudioContext := none }
    | none => r3
  let r5 :=
    match r4.outputAudioContext with
    | some c => if c = CtxState.closed then r4 else { r4 with outputAudioContext := none }
    | none => r4
  if r5.session.isSome then { r5 with session := none } else r5

/-- The `SessionState` union type of `SceneDescriptorMode`. -/
inductive SessionState
  | idle
  | connecting
  | active
  | error
  | stopped
  deriving DecidableEq

/-- Component-level state of `SceneDescriptorMode`: the `sessionState` and
`error` React states plus the resource refs. -/
structure SceneComponentState where
  sessionState : SessionState
  errorMsg : Option String
  resources : SceneResources
  deriving DecidableEq

/-- Error message set by the `onerror` callback. -/
def connectionErrorMessage : String := "An error occurred with the connection."

/-- The `onerror` callback (SceneDescriptorMode.tsx lines 180-185): set the
error message, transition to the `error` state and run `cleanup`.  Nothing
else happens: no reconnect is attempted. -/
def onerror (st : SceneComponentState) : SceneComponentState :=
  { st with
      errorMsg := some connectionErrorMessage,
      sessionState := SessionState.error,
      resources := cleanup st.resources }

/-- The `stopSession` handler (SceneDescriptorMode.tsx lines 201-204):
run `cleanup` and transition to `stopped`. -/
def stopSession (st : SceneComponentState) : SceneComponentState :=
  { st with
      sessionState := SessionState.stopped,
      resources := cleanup st.resources }

/-- Error message set by `startSession` when no media stream is held. -/
def mediaStreamErrorMessage : String := "Media stream not available."

/-- The `startSession` handler up to session connection (SceneDescriptorMode.tsx
lines 83-101): when `mediaStreamRef` is null it sets the error message, moves
to the `error` state and returns, touching no resource; otherwise it moves to
`connecting`, opens both audio contexts and stores the session promise.
(The transcription and `nextAudioStartTime` resets of the success path are
not relevant to the guard and live in `PlaybackState`.) -/
def startSession (st : SceneComponentState) : SceneComponentState :=
  if st.resources.mediaStream = none then
    { st with
        errorMsg := some mediaStreamErrorMessage,
        sessionState := SessionState.error }
  else
    { st with
        sessionState := SessionState.connecting,
        resources :=
          { st.resources with
              inputAudioContext := some CtxState.running,
              outputAudioContext := some CtxState.running,
              session := some () } }

/-! ### Fast Mode: capture guard and summary generation -/

/-- A detection box as stored in the `boxes` React state of `FastMode`. -/
structure BoundingBox where
  id : Nat
  label : String
  x : ℚ
  y : ℚ
  width : ℚ
  height : ℚ
  deriving DecidableEq

/-- React state of `FastMode` touched by `handleCapture`. -/
structure FastState where
  capturedImage : Option String
  errorMsg : Option String
  boxes : List BoundingBox
  isDetecting : Bool
  deriving DecidableEq

/-- External effects started by the synchronous prefix of `handleCapture`. -/
inductive CaptureAction
  | cancelSpeech
  | startDetection
  deriving DecidableEq

/-- The entry guard and synchronous prefix of `handleCapture`
(FastMode.tsx lines 90-94): the body runs only when the video and canvas
refs are set, the model is loaded and no detection is in flight; otherwise
the call returns with no state change and no effect (nothing is queued).
When the body runs it sets `isDetecting`, clears `boxes`, cancels speech and
starts the detection. -/
def handleCaptureStart (hasVideo hasCanvas modelLoaded : Bool) (st : FastState) :
    FastState × List CaptureAction :=
  if hasVideo && hasCanvas && modelLoaded && !st.isDetecting then
    ({ st with isDetecting := true, boxes := [] },
      [CaptureAction.cancelSpeech, CaptureAction.startDetection])
  else (st, [])

/-- Summary spoken when the detector returns no predictions. -/
def noObjectsMessage : String := "I could not detect any objects."

/-- One insertion step of the JS `Set` built in `handleCapture`:
an element already present is dropped, a new one is appended. -/
def insertLabel (acc : List String) (l : String) : List String :=
  if l ∈ acc then acc else acc ++ [l]

/-- The `uniqueLabels` list of `handleCapture` (FastMode.tsx line 111):
spreading a JS `Set` of the prediction labels removes duplicates while
keeping first-occurrence order. -/
def uniqueLabels (labels : List String) : List String :=
  labels.foldl insertLabel []

/-- Separator used by the JS `join` call. -/
def commaSep : String := ", "

/-- Summary construction over the distinct labels (FastMode.tsx lines
112-120).  The source branches on `predictions.length === 0`, which holds
exactly when the distinct-label list is empty; the two-or-more branch pops
the last label and joins the rest. -/
def summaryFromUnique : List String → String
  | [] => noObjectsMessage
  | [x] => "I see a " ++ x ++ "."
  | x :: y :: rest =>
    "I see " ++ String.intercalate commaSep ((x :: y :: rest).dropLast) ++
      ", and a " ++ (x :: y :: rest).getLast (List.cons_ne_nil x (y :: rest)) ++ "."

/-- The spoken summary of `handleCapture` as a function of the prediction
labels (in detector order). -/
def generateSummary (labels : List String) : String :=
  summaryFromUnique (uniqueLabels labels)

/-! ### Maps Mode: navigation loop and permission machine -/

/-- React state of `MapsMode` touched by the navigation response handler:
the `isNavigating` flag (mirrored by `isNavigatingRef`), the displayed
instruction, and the pending speech-synthesis queue. -/
structure NavState where
  isNavigating : Bool
  instruction : String
  spokenQueue : List String
  deriving DecidableEq

/-- Instruction shown by `handleStopNavigation`. -/
def navStoppedMessage : String := "Navigation stopped. Enter a destination to begin again."

/-- Error instruction spoken when a navigation request fails. -/
def navFailureMessage : String := "Sorry, I couldn\x27t get the next instruction."

/-- The `speak` helper (MapsMode.tsx lines 49-53): cancel pending speech,
then enqueue the utterance. -/
def speak (st : NavState) (text : String) : NavState :=
  { st with spokenQueue := [text] }

/-- The `handleStopNavigation` handler (MapsMode.tsx lines 235-239): clear
the navigating flag, show the stopped message, and `cleanup` (which cancels
speech). -/
def handleStopNavigation (st : NavState) : NavState :=
  { st with
      isNavigating := false,
      instruction := navStoppedMessage,
      spokenQueue := [] }

/-- The response half of `getNavigationInstruction` (MapsMode.tsx lines
200-214): on success or failure, the instruction is updated and spoken only
when `isNavigatingRef.current` is still true at response time. -/
def handleAIResponse (st : NavState) (response : Except Unit String) : NavState :=
  match response with
  | Except.ok text =>
    if st.isNavigating then speak { st with instruction := text } text else st
  | Except.error _ =>
    if st.isNavigating then
      speak { st with instruction := navFailureMessage } navFailureMessage
    else st

/-- The `locationPermission` union type of `MapsMode`. -/
inductive PermissionState
  | checking
  | prompt
  | granted
  | denied
  deriving DecidableEq

/-- Permission-related React state of `MapsMode`. -/
structure PermState where
  locationPermission : PermissionState
  errorMsg : Option String
  deriving DecidableEq

/-- Error message set when the browser lacks geolocation support. -/
def geolocationUnsupportedMessage : String := "Geolocation is not supported by your browser."

/-- The `checkLocationPermission` effect (MapsMode.tsx lines 67-88):
without geolocation support, the error message is set and the permission
state becomes `denied`; otherwise the Permissions API is queried
(`queryResult = some s` on success, `none` when the API throws, which falls
back to `prompt`). -/
def checkLocationPermission (hasGeolocation : Bool) (queryResult : Option PermissionState)
    (st : PermState) : PermState :=
  if !hasGeolocation then
    { st with
        errorMsg := some geolocationUnsupportedMessage,
        locationPermission := PermissionState.denied }
  else
    match queryResult with
    | some s => { st with locationPermission := s }
    | none => { st with locationPermission := PermissionState.prompt }

/-- The four screens the `MapsMode` render function can produce. -/
inductive MapsScreen
  | loadingScreen
  | promptScreen
  | deniedScreen
  | mainScreen
  deriving DecidableEq

/-- The top-level branch structure of the `MapsMode` render (MapsMode.tsx
lines 246-293): loading/checking, then the prompt screen, then the denied
screen, else the main screen. -/
def renderMaps (isLoading : Bool) (p : PermissionState) : MapsScreen :=
  if isLoading ∨ p = PermissionState.checking then MapsScreen.loadingScreen
  else if p = PermissionState.prompt then MapsScreen.promptScreen
  else if p = PermissionState.denied then MapsScreen.deniedScreen
  else MapsScreen.mainScreen

/-- Whether a screen offers a control invoking `requestLocationPermission`:
only the prompt screen carries the Enable Location button. -/
def screenRequestsLocation (s : MapsScreen) : Bool :=
  s = MapsScreen.promptScreen

/-! ## Theorems -/

/-! ### C1 and C2: audio playback scheduling and interruption -/

lemma onAudioChunk_start (st : PlaybackState) (t d : ℚ) :
    (onAudioChunk st t d).2 = max st.nextAudioStartTime t := rfl

lemma onAudioChunk_next (st : PlaybackState) (t d : ℚ) :
    (onAudioChunk st t d).1.nextAudioStartTime = max st.nextAudioStartTime t + d := rfl

lemma scheduleStarts_head_ge (st : PlaybackState) (frags : List (ℚ × ℚ)) :
    ∀ p ∈ (scheduleStarts st frags).head?, st.nextAudioStartTime ≤ p.1 := by
  intro p hp
  cases frags with
  | nil => simp [scheduleStarts] at hp
  | cons frag rest =>
    simp only [scheduleStarts, List.head?_cons, Option.mem_def, Option.some.injEq] at hp
    rw [← hp]
    exact le_max_left _ _

lemma scheduleStarts_chain (frags : List (ℚ × ℚ)) :
    ∀ st : PlaybackState, (∀ p ∈ frags, 0 ≤ p.2) →
      List.Chain' (fun p q : ℚ × ℚ => p.1 ≤ q.1 ∧ p.1 + p.2 ≤ q.1)
        (scheduleStarts st frags) := by
  induction frags with
  | nil => intro st _; simp [scheduleStarts]
  | cons frag rest ih =>
    intro st hd
    simp only [scheduleStarts]
    refine List.chain'_cons'.mpr ⟨?_, ih _ fun p hp => hd p (List.mem_cons_of_mem _ hp)⟩
    intro q hq
    have h1 := scheduleStarts_head_ge (onAudioChunk st frag.1 frag.2).1 rest q hq
    rw [onAudioChunk_next] at h1
    have hd0 : 0 ≤ frag.2 := hd frag (List.mem_cons_self _ _)
    refine ⟨?_, ?_⟩
    · show (onAudioChunk st frag.1 frag.2).2 ≤ q.1
      rw [onAudioChunk_start]
      linarith
    · show (onAudioChunk st frag.1 frag.2).2 + frag.2 ≤ q.1
      rw [onAudioChunk_start]
      linarith

/-- Claim C1: in the Scene Descriptor onmessage handler, each decoded buffer
is scheduled to start at max(previously scheduled end time, current
audio-clock time), and the next start time then advances by the buffer's
duration; consequently, for every sequence of received audio fragments with
nonnegative durations, scheduled start times are non-decreasing and each
buffer's playback window begins no earlier than the end of the previous
buffer's window, so consecutive windows do not overlap. -/
theorem c1_audio_scheduling :
    (∀ (st : PlaybackState) (t d : ℚ),
      (onAudioChunk st t d).2 = max st.nextAudioStartTime t ∧
        (onAudioChunk st t d).1.nextAudioStartTime = max st.nextAudioStartTime t + d) ∧
    (∀ (st : PlaybackState) (frags : List (ℚ × ℚ)), (∀ p ∈ frags, 0 ≤ p.2) →
      List.Chain' (fun p q : ℚ × ℚ => p.1 ≤ q.1 ∧ p.1 + p.2 ≤ q.1)
        (scheduleStarts st frags)) :=
  ⟨fun st t d => ⟨onAudioChunk_start st t d, onAudioChunk_next st t d⟩,
    fun st frags hd => scheduleStarts_chain frags st hd⟩

/-- Witness for C1 at a concrete fragment sequence. -/
theorem c1_audio_scheduling_witness :
    List.Chain' (fun p q : ℚ × ℚ => p.1 ≤ q.1 ∧ p.1 + p.2 ≤ q.1)
      (scheduleStarts ⟨"", 0, [], [], 0⟩ [(0, 2), (5, 1), (3, 4)]) :=
  c1_audio_scheduling.2 ⟨"", 0, [], [], 0⟩ [(0, 2), (5, 1), (3, 4)] (by decide)

/-- Claim C2: whenever a message carries the interruption signal, after the
onmessage handler runs the set of pending audio sources is empty, the
scheduling clock is reset to exactly zero, every source scheduled before the
message is stopped, and so is the source scheduled by the message itself
when it also carried audio. -/
theorem c2_interruption_clears :
    ∀ (t : ℚ) (msg : ServerMessage) (st : PlaybackState), msg.interrupted = true →
      (onmessage t msg st).audioSources = [] ∧
      (onmessage t msg st).nextAudioStartTime = 0 ∧
      (∀ s ∈ st.audioSources, s ∈ (onmessage t msg st).stoppedSources) ∧
      (msg.audioDuration.isSome = true →
        st.nextSourceId ∈ (onmessage t msg st).stoppedSources) := by
  intro t msg st h
  obtain ⟨tr, ad, itr⟩ := msg
  simp only at h
  subst h
  cases tr <;> cases ad <;>
    simp [onmessage, onAudioChunk, List.mem_append] <;>
    first
      | exact fun s hs => Or.inr hs
      | exact fun s hs => Or.inr (Or.inl hs)

/-- Witness for C2 at a concrete interrupting message. -/
theorem c2_interruption_clears_witness :
    (onmessage 3 ⟨some ("hi"), some 2, true⟩ ⟨"", 5, [0, 1], [], 2⟩).audioSources = [] ∧
    (onmessage 3 ⟨some ("hi"), some 2, true⟩ ⟨"", 5, [0, 1], [], 2⟩).nextAudioStartTime = 0 :=
  ⟨(c2_interruption_clears 3 ⟨some ("hi"), some 2, true⟩ ⟨"", 5, [0, 1], [], 2⟩ rfl).1,
    (c2_interruption_clears 3 ⟨some ("hi"), some 2, true⟩ ⟨"", 5, [0, 1], [], 2⟩ rfl).2.1⟩

/-! ### C3: cleanup teardown -/

/-- Claim C3 as stated is false: when an audio-context ref still points at an
already-closed context, `cleanup` leaves that ref non-null (the source nulls
the ref only inside the branch guarded by the context not being closed).
Concretely, starting from a state whose only live ref is an input audio
context in the closed state, after `cleanup` that ref is still set. -/
theorem c3_cleanup_counterexample :
    ¬ ((cleanup ⟨none, none, none, some CtxState.closed, none, none⟩).inputAudioContext
        = none) := by
  decide

set_option maxRecDepth 8000 in
/-- Claim C3 (amended): cleanup is total and idempotent from any state —
calling it twice equals calling it once — and after it returns the frame
timer, media stream, script-processor node and session reference are null;
each audio-context ref is also null unless it pointed at an already-closed
context, in which case it is left unchanged (an inert, not an active,
resource). -/
theorem c3_cleanup_idempotent :
    ∀ r : SceneResources,
      cleanup (cleanup r) = cleanup r ∧
      (cleanup r).frameInterval = none ∧
      (cleanup r).mediaStream = none ∧
      (cleanup r).scriptProcessor = none ∧
      (cleanup r).session = none ∧
      (cleanup r).inputAudioContext =
        (if r.inputAudioContext = some CtxState.closed then r.inputAudioContext else none) ∧
      (cleanup r).outputAudioContext =
        (if r.outputAudioContext = some CtxState.closed then r.outputAudioContext
          else none) := by
  decide

/-! ### C6: transport error handling -/

set_option maxRecDepth 8000 in
lemma cleanup_session_none (r : SceneResources) : (cleanup r).session = none := by
  revert r
  decide

/-- Claim C6: a transport error (the onerror callback) always transitions the
session state to error, surfaces the error message, and performs exactly the
same resource teardown as stopping the session; afterwards the session ref is
null and no reconnect exists (the resulting state carries no session). -/
theorem c6_onerror_teardown :
    ∀ st : SceneComponentState,
      (onerror st).sessionState = SessionState.error ∧
      (onerror st).errorMsg = some connectionErrorMessage ∧
      (onerror st).resources = (stopSession st).resources ∧
      (onerror st).resources.session = none := by
  intro st
  exact ⟨rfl, rfl, rfl, cleanup_session_none st.resources⟩

/-! ### C10: startSession without a media stream -/

/-- Claim C10: if startSession is invoked while the media stream ref is null,
it sets the error message, transitions to the error state and returns with
every resource ref exactly as it was before the call (no audio context is
opened and no session is created). -/
theorem c10_start_without_stream :
    ∀ st : SceneComponentState, st.resources.mediaStream = none →
      startSession st =
        { st with
            errorMsg := some mediaStreamErrorMessage,
            sessionState := SessionState.error } ∧
      (startSession st).resources = st.resources := by
  intro st h
  constructor
  · simp [startSession, h]
  · simp [startSession, h]

/-- Witness for C10 at the freshly mounted state (all refs null). -/
theorem c10_start_without_stream_witness :
    startSession ⟨SessionState.idle, none, ⟨none, none, none, none, none, none⟩⟩ =
      ⟨SessionState.error, some mediaStreamErrorMessage,
        ⟨none, none, none, none, none, none⟩⟩ :=
  (c10_start_without_stream
    ⟨SessionState.idle, none, ⟨none, none, none, none, none, none⟩⟩ rfl).1

/-! ### C4 and C9: capture-summary generation -/

lemma insertLabel_nil (l : String) : insertLabel [] l = [l] := rfl

lemma foldl_insertLabel_const (L : String) :
    ∀ rest : List String, (∀ l ∈ rest, l = L) →
      List.foldl insertLabel [L] rest = [L] := by
  intro rest
  induction rest with
  | nil => intro _; rfl
  | cons a tail ih =>
    intro h
    have ha : a = L := h a (List.mem_cons_self _ _)
    subst ha
    simp only [List.foldl_cons]
    rw [show insertLabel [a] a = [a] from by simp [insertLabel]]
    exact ih fun l hl => h l (List.mem_cons_of_mem _ hl)

lemma uniqueLabels_const (L : String) (labels : List String) (hne : labels ≠ [])
    (hall : ∀ l ∈ labels, l = L) : uniqueLabels labels = [L] := by
  cases labels with
  | nil => exact absurd rfl hne
  | cons a rest =>
    have ha : a = L := hall a (List.mem_cons_self _ _)
    subst ha
    show List.foldl insertLabel (insertLabel [] a) rest = [a]
    rw [insertLabel_nil]
    exact foldl_insertLabel_const a rest fun l hl => hall l (List.mem_cons_of_mem _ hl)

/-- Claim C4: the spoken summary of handleCapture is exactly
"I could not detect any objects." on an empty prediction list; exactly
"I see a X." when the distinct labels are the single label X; exactly
"I see dog, and a cat." for the label list [dog, cat]; and for two or more
distinct labels it is "I see " followed by all distinct labels but the last
joined with ", ", then ", and a ", the last label and a period. -/
theorem c4_summary_generation :
    generateSummary [] = "I could not detect any objects." ∧
    (∀ (labels : List String) (x : String), uniqueLabels labels = [x] →
      generateSummary labels = "I see a " ++ x ++ ".") ∧
    generateSummary (["dog", "cat"]) = "I see dog, and a cat." ∧
    (∀ (labels : List String) (x y : String) (rest : List String),
      uniqueLabels labels = x :: y :: rest →
      generateSummary labels =
        "I see " ++ String.intercalate commaSep ((x :: y :: rest).dropLast) ++
          ", and a " ++ (x :: y :: rest).getLast (List.cons_ne_nil x (y :: rest)) ++ ".") := by
  refine ⟨rfl, ?_, by decide, ?_⟩
  · intro labels x h
    unfold generateSummary
    rw [h]
    rfl
  · intro labels x y rest h
    unfold generateSummary
    rw [h]
    rfl

/-- Witness for C4 on concrete label lists with one and with three distinct
labels. -/
theorem c4_summary_generation_witness :
    generateSummary (["dog", "dog"]) = "I see a dog." ∧
    generateSummary (["dog", "cat", "bird"]) = "I see dog, cat, and a bird." := by
  constructor
  · exact (c4_summary_generation.2.1 (["dog", "dog"]) ("dog") (by decide)).trans (by decide)
  · exact (c4_summary_generation.2.2.2 (["dog", "cat", "bird"]) ("dog") ("cat")
      (["bird"]) (by decide)).trans (by decide)

/-- Claim C9: the capture summary depends only on the distinct-label list
(duplicates removed, first occurrence kept), not on the number of detected
objects; in particular, for every non-empty prediction list whose labels all
equal one label L, the summary is the singular "I see a L.". -/
theorem c9_summary_distinct_labels :
    (∀ ls1 ls2 : List String, uniqueLabels ls1 = uniqueLabels ls2 →
      generateSummary ls1 = generateSummary ls2) ∧
    (∀ (L : String) (labels : List String), labels ≠ [] → (∀ l ∈ labels, l = L) →
      generateSummary labels = "I see a " ++ L ++ ".") := by
  constructor
  · intro ls1 ls2 h
    unfold generateSummary
    rw [h]
  · intro L labels hne hall
    unfold generateSummary
    rw [uniqueLabels_const L labels hne hall]
    rfl

/-- Witness for C9: three detections of the same label yield the singular
summary. -/
theorem c9_summary_distinct_labels_witness :
    generateSummary (["cat", "cat", "cat"]) = "I see a cat." :=
  (c9_summary_distinct_labels.2 ("cat") (["cat", "cat", "cat"])
    (by decide) (by decide)).trans (by decide)

/-! ### C5: stale navigation responses -/

/-- Claim C5: an AI navigation response (success or failure) handled after
handleStopNavigation has run changes nothing — the displayed instruction is
not updated and no speech is produced — because the response handler acts
only when the navigation-liveness flag is still true at response time. -/
theorem c5_stale_response_ignored :
    ∀ (st : NavState) (response : Except Unit String),
      handleAIResponse (handleStopNavigation st) response = handleStopNavigation st ∧
      (st.isNavigating = false → handleAIResponse st response = st) := by
  intro st response
  constructor
  · cases response <;> simp [handleAIResponse, handleStopNavigation]
  · intro h
    cases response <;> simp [handleAIResponse, h]

/-- Witness for C5 at concrete stopped states, for a success and for a
failure response. -/
theorem c5_stale_response_ignored_witness :
    handleAIResponse (handleStopNavigation ⟨true, "", []⟩) (Except.ok ("Turn left")) =
      handleStopNavigation ⟨true, "", []⟩ ∧
    handleAIResponse ⟨false, "x", []⟩ (Except.error ()) = ⟨false, "x", []⟩ :=
  ⟨(c5_stale_response_ignored ⟨true, "", []⟩ (Except.ok ("Turn left"))).1,
    (c5_stale_response_ignored ⟨false, "x", []⟩ (Except.error ())).2 rfl⟩

/-! ### C7: single in-flight detection -/

/-- Claim C7: a handleCapture invocation that occurs while a detection is
still in flight (isDetecting true) is ignored entirely — the state is
unchanged, no detection is started, nothing is queued. -/
theorem c7_single_inflight :
    ∀ (hasVideo hasCanvas modelLoaded : Bool) (st : FastState),
      st.isDetecting = true →
        handleCaptureStart hasVideo hasCanvas modelLoaded st = (st, []) := by
  intro hv hc ml st h
  simp [handleCaptureStart, h]

/-- Witness for C7: a capture attempted mid-detection is a no-op even with
video, canvas and model all available. -/
theorem c7_single_inflight_witness :
    handleCaptureStart true true true ⟨none, none, [], true⟩ =
      (⟨none, none, [], true⟩, []) :=
  c7_single_inflight true true true ⟨none, none, [], true⟩ rfl

/-! ### C8: permission denial versus unsupported geolocation -/

/-- Claim C8 as stated is false: unsupported geolocation is not a separate
terminal UI state from permission denial.  Concretely, checkLocationPermission
on a browser without geolocation puts the component into the same denied
permission state as a Permissions-API denial, and the render function
produces the same denied screen for both. -/
theorem c8_claim_counterexample :
    (checkLocationPermission false none ⟨PermissionState.checking, none⟩).locationPermission =
      (checkLocationPermission true (some PermissionState.denied)
        ⟨PermissionState.checking, none⟩).locationPermission ∧
    renderMaps false
        (checkLocationPermission false none
          ⟨PermissionState.checking, none⟩).locationPermission =
      renderMaps false
        (checkLocationPermission true (some PermissionState.denied)
          ⟨PermissionState.checking, none⟩).locationPermission := by
  decide

/-- Claim C8 (amended): unsupported geolocation is collapsed into the same
terminal denied permission state and the same denied screen as a permission
denial, distinguished only by the error message it sets; the denied screen is
terminal in that it offers no control requesting location permission (no
silent retry; only the browser-level permission change listener can leave
it). -/
theorem c8_denied_terminal :
    ∀ (queryResult : Option PermissionState) (st : PermState),
      (checkLocationPermission false queryResult st).locationPermission =
        PermissionState.denied ∧
      (checkLocationPermission false queryResult st).errorMsg =
        some geolocationUnsupportedMessage ∧
      renderMaps false PermissionState.denied = MapsScreen.deniedScreen ∧
      screenRequestsLocation MapsScreen.deniedScreen = false := by
  intro q st
  exact ⟨rfl, rfl, by decide, by decide⟩

end HaptiNav
